import Mathlib

/-!
Shallow embedding of the filter-compilation / query-assembly layer and the
tile cache of FastCollections (src/api/utilities.py and
src/api/routers/collections/router.py).

Conventions used throughout:
* SQL text is modelled as `String`, assembled by the same concatenations the
  Python f-strings perform; runs of indentation whitespace inside the
  multi-line SQL literals are compressed, the tokens and their order are kept.
* The single-quote character that the Python code splices around literals is
  written `squo` (character 39) instead of a literal quote character.
* The tile-cache directory tree under `cwd` is modelled as `TileFS`:
  a list of created directories, a list of `(path, bytes)` files, and a flag
  `makedirs_ok` telling whether an `os.makedirs` call issued by the request
  would succeed (the environmental nondeterminism of the filesystem).
  The constant `os.getcwd()` prefix of every path is dropped.
* The live database is an oracle function passed as a parameter: the code
  under verification only assembles queries and moves bytes around, query
  execution belongs to the storage collaborator.
* Fallible code returns `Except String`.
-/

namespace FastCollections

/-- The single-quote character used by the Python code around SQL literals. -/
def squo : String := String.singleton (Char.ofNat 39)

/-- Helper of `split_on_comma`: walks the characters, accumulating the
current (reversed) piece. -/
def split_on_comma_aux : List Char → List Char → List String
  | [], acc => [String.mk acc.reverse]
  | c :: rest, acc =>
      if c = ',' then String.mk acc.reverse :: split_on_comma_aux rest []
      else split_on_comma_aux rest (c :: acc)

/-- Python's `s.split(',')` (an empty string yields `[""]`). -/
def split_on_comma (s : String) : List String := split_on_comma_aux s.data []

/-- Containment of one character list in another. -/
def charsContain : List Char → List Char → Bool
  | [], pat => pat.isEmpty
  | c :: rest, pat => pat.isPrefixOf (c :: rest) || charsContain rest pat

/-- Substring test on strings (used to state where literals land in SQL text). -/
def strContains (s pat : String) : Bool := charsContain s.data pat.data

/-- `strStartsWith p s` holds when `p` is a leading piece of `s`. -/
def strStartsWith (p s : String) : Bool := p.data.isPrefixOf s.data

/-! ## Tile cache filesystem model -/

/-- Model of the cache directory tree: created directories, regular files
with their contents, and whether an `os.makedirs` call would succeed. -/
structure TileFS where
  dirs : List String
  files : List (String × String)
  makedirs_ok : Bool
deriving Repr, DecidableEq

/-- `os.path.exists` for a directory path `p`: `p` exists when some created
directory is `p` or lies below `p`, or some file lies below `p`. -/
def dir_exists (fs : TileFS) (p : String) : Bool :=
  (fs.dirs.any fun d => p == d || strStartsWith (p ++ "/") d) ||
  (fs.files.any fun f => strStartsWith (p ++ "/") f.1)

/-- `shutil.rmtree p`: removes the directory `p` and everything below it. -/
def rmtree (p : String) (fs : TileFS) : TileFS :=
  { dirs := fs.dirs.filter fun d => !(p == d || strStartsWith (p ++ "/") d),
    files := fs.files.filter fun f => !(strStartsWith (p ++ "/") f.1),
    makedirs_ok := fs.makedirs_ok }

/-- `cache/{schema}_{table}` — the per-table cache directory
(`os.getcwd()` prefix dropped). -/
def table_cache_dir (schema table : String) : String :=
  "cache/" ++ schema ++ "_" ++ table

/-- `cache/{schema}_{table}/{tile_matrix_set_id}/{z}/{x}/{y}` — the cache file
of one tile (utilities.get_tile, line 68). -/
def cache_file_path (schema table tile_matrix_set_id : String) (z x y : Int) : String :=
  table_cache_dir schema table ++ "/" ++ tile_matrix_set_id ++ "/" ++
    toString z ++ "/" ++ toString x ++ "/" ++ toString y

/-- `cache/{schema}_{table}/{tile_matrix_set_id}/{z}/{x}` — the directory the
cache write creates (utilities.get_tile, line 132). -/
def cache_file_dir (schema table tile_matrix_set_id : String) (z x : Int) : String :=
  table_cache_dir schema table ++ "/" ++ tile_matrix_set_id ++ "/" ++
    toString z ++ "/" ++ toString x

/-- Arguments of `utilities.get_tile`. -/
structure TileArgs where
  schema : String
  table : String
  tile_matrix_set_id : String
  z : Int
  x : Int
  y : Int
  fields : Option String
  cql_filter : Option String
deriving Repr, DecidableEq

/-- Result of `utilities.get_tile`: the payload and cached flag it returns,
the filesystem afterwards, and whether the live query ran / a cache file was
written (observables of the run). -/
structure TileOutput where
  pbf : String
  tile_cache : Bool
  fs : TileFS
  queried : Bool
  wrote : Bool
deriving Repr, DecidableEq

/-- The cache-write block of `utilities.get_tile` (lines 132-142):
`os.makedirs` is attempted when the directory is missing and an `OSError`
from it is swallowed (`except OSError: pass`); the following
`open(cache_file, "wb")` is unguarded, so it raises when the directory is
still missing. -/
def write_tile_to_cache (fs : TileFS) (dir file tile : String) : Except String TileFS :=
  let fs1 := if dir_exists fs dir = false then
               (if fs.makedirs_ok then
                  { dirs := dir :: fs.dirs, files := fs.files,
                    makedirs_ok := fs.makedirs_ok }
                else fs)
             else fs
  if dir_exists fs1 dir then
    Except.ok { dirs := fs1.dirs, files := (file, tile) :: fs1.files,
                makedirs_ok := fs1.makedirs_ok }
  else
    Except.error "OSError: cache file open failed"

/-- `utilities.get_tile` (lines 52-144). The cache hit test is
`os.path.exists(cache_file)` and returns `('', True)` before anything else;
the live vector-tile query (`sql_vector_query`, executed through
`con.fetchval`) is abstracted as the oracle `db`; the cache write happens
only under `fields is None and cql_filter is None and CACHE_AGE_IN_SECONDS > 0`. -/
def get_tile (db : TileArgs → String) (cache_age_in_seconds : Int)
    (fs : TileFS) (a : TileArgs) : Except String TileOutput :=
  if (fs.files.lookup
        (cache_file_path a.schema a.table a.tile_matrix_set_id a.z a.x a.y)).isSome then
    Except.ok { pbf := "", tile_cache := true, fs := fs, queried := false, wrote := false }
  else
    if a.fields = none ∧ a.cql_filter = none ∧ 0 < cache_age_in_seconds then
      match write_tile_to_cache fs
          (cache_file_dir a.schema a.table a.tile_matrix_set_id a.z a.x)
          (cache_file_path a.schema a.table a.tile_matrix_set_id a.z a.x a.y)
          (db a) with
      | Except.ok fs2 =>
          Except.ok { pbf := db a, tile_cache := false, fs := fs2,
                      queried := true, wrote := true }
      | Except.error e => Except.error e
    else
      Except.ok { pbf := db a, tile_cache := false, fs := fs,
                  queried := true, wrote := false }

/-- The response the `tile` route endpoint builds (router lines 984-1007):
status code, the `Cache-Control` header value, the `tile-cache` header value,
and the filesystem afterwards. -/
structure TileRouteResponse where
  status_code : Nat
  cache_control : String
  tile_cache_header : String
  fs : TileFS
deriving Repr, DecidableEq

/-- The `tile` route endpoint (router lines 957-1007): calls
`utilities.get_tile`, then sets `max_cache_age = config.CACHE_AGE_IN_SECONDS`
and overwrites it with `0` under `fields is not None and cql_filter is not
None`; a cache hit is served as a `FileResponse` with headers
`Cache-Control: max-age={max_cache_age}` and `tile-cache: true`, a live
result as a `Response` with `tile-cache: false` and status 204 when the
payload is empty. -/
def tile_route (db : TileArgs → String) (cache_age_in_seconds : Int)
    (fs : TileFS) (a : TileArgs) : Except String TileRouteResponse :=
  match get_tile db cache_age_in_seconds fs a with
  | Except.error e => Except.error e
  | Except.ok out =>
      let max_cache_age : Int :=
        if a.fields.isSome ∧ a.cql_filter.isSome then 0 else cache_age_in_seconds
      if out.tile_cache then
        Except.ok { status_code := 200,
                    cache_control := "max-age=" ++ toString max_cache_age,
                    tile_cache_header := "true", fs := out.fs }
      else
        Except.ok { status_code := if out.pbf = "" then 204 else 200,
                    cache_control := "max-age=" ++ toString max_cache_age,
                    tile_cache_header := "false", fs := out.fs }

/-! ## Query assembly of `utilities.get_table_geojson` (lines 289-360) -/

/-- Arguments of `utilities.get_table_geojson` that shape the assembled query
(the defaults in the source are `limit=200000, offset=0, properties="*",
sortby="gid", sortdesc=1, srid=4326, return_geometry=True`). -/
structure GeojsonArgs where
  schema : String
  table : String
  filter : Option String
  bbox : Option String
  limit : Int
  offset : Int
  properties : String
  sortby : String
  sortdesc : Int
  srid : Int
  return_geometry : Bool
deriving Repr, DecidableEq

/-- The constant `json_build_object` header of the geometry-returning query
(lines 312-319; indentation whitespace compressed). -/
def geojson_select_header : String :=
  " SELECT json_build_object(" ++ squo ++ "type" ++ squo ++ ", " ++
    squo ++ "FeatureCollection" ++ squo ++ ", " ++ squo ++ "features" ++ squo ++
    ", json_agg(ST_AsGeoJSON(t.*)::json)) FROM ( "

/-- The projection part of the query (lines 311-330). -/
def select_clause (a : GeojsonArgs) : String :=
  if a.return_geometry then
    geojson_select_header ++
      (if a.properties ≠ "*" ∧ a.properties ≠ "" then
         "SELECT " ++ a.properties ++ ",ST_Transform(geom," ++ toString a.srid ++ ")"
       else
         "SELECT ST_Transform(geom," ++ toString a.srid ++ "), gid")
  else
    if a.properties ≠ "*" ∧ a.properties ≠ "" then
      "SELECT " ++ a.properties ++ ", gid"
    else
      "SELECT gid"

/-- ` FROM "{schema}"."{table}" ` (line 332). -/
def from_clause (schema table : String) : String :=
  " FROM \"" ++ schema ++ "\".\"" ++ table ++ "\" "

/-- The `ST_MakeEnvelope` fragment built from the comma-separated bbox
(lines 346-348). -/
def bbox_envelope_fragment (bbox : String) : String :=
  " ST_INTERSECTS(geom,ST_MakeEnvelope(" ++ (split_on_comma bbox).getD 0 "" ++ ", " ++
    (split_on_comma bbox).getD 1 "" ++ ", " ++ (split_on_comma bbox).getD 2 "" ++ ", " ++
    (split_on_comma bbox).getD 3 "" ++ ", 4326)) "

/-- The filter / bbox part of the query (lines 335-348); the parallel
`count_query` receives the same text. -/
def where_clause (filter : Option String) (bbox : Option String) : String :=
  (match filter with
   | some f => "WHERE " ++ f
   | none => "") ++
  (match bbox with
   | some b => (if filter.isSome then " AND " else " WHERE ") ++ bbox_envelope_fragment b
   | none => "")

/-- The ordering part of the query (lines 350-354): an `ORDER BY` is appended
only when `sortby != "gid"`; direction is `asc` unless `sortdesc != 1`. -/
def order_by_clause (sortby : String) (sortdesc : Int) : String :=
  if sortby ≠ "gid" then
    " ORDER BY " ++ sortby ++ " " ++ (if sortdesc ≠ 1 then "desc" else "asc")
  else ""

/-- ` OFFSET {offset} LIMIT {limit}` (line 356). -/
def offset_limit_clause (offset limit : Int) : String :=
  " OFFSET " ++ toString offset ++ " LIMIT " ++ toString limit

/-- `) AS t;` closing the subquery in the geometry-returning shape
(lines 358-360). -/
def closing_clause (return_geometry : Bool) : String :=
  if return_geometry then ") AS t;" else ""

/-- The complete query text `utilities.get_table_geojson` executes through
`con.fetchrow(query)` / `con.fetch(query)`: the parts above concatenated in
source order. No parameter list accompanies the query — the fetch calls take
the bare string. -/
def get_table_geojson_query (a : GeojsonArgs) : String :=
  select_clause a ++ from_clause a.schema a.table ++ where_clause a.filter a.bbox ++
    order_by_clause a.sortby a.sortdesc ++ offset_limit_clause a.offset a.limit ++
    closing_clause a.return_geometry

/-! ## The `items` endpoint (router lines 207-324) -/

/-- The query parameters the `items` endpoint refuses to treat as implicit
column filters (lines 228-237). -/
def blacklist_query_parameters : List String :=
  ["bbox", "limit", "offset", "properties", "sortby", "sortdesc", "cql_filter", "srid"]

/-- The request's query parameters that are not blacklisted (lines 239-243). -/
def new_query_parameters (query_params : List (String × String)) : List String :=
  (query_params.map Prod.fst).filter fun q => !(blacklist_query_parameters.contains q)

/-- Assembly of the implicit column-equality fragment (lines 245, 279-284):
for every catalog column named by a non-blacklisted query parameter the code
appends ` {column} = '{value}' `, joined by ` AND `, splicing the raw
parameter value between single quotes. -/
def column_where_parameters (db_fields : List String)
    (query_params : List (String × String)) : String :=
  db_fields.foldl
    (fun acc field =>
      if (new_query_parameters query_params).contains field then
        (if acc.length ≠ 0 then acc ++ " AND " else acc) ++
          " " ++ field ++ " = " ++ squo ++ ((query_params.lookup field).getD "") ++
          squo ++ " "
      else acc)
    ""

/-- Merge of the compiled `cql_filter` with the column-equality fragment
(lines 305-309). -/
def items_cql_filter_merge (cql_filter : Option String)
    (column_parameters : String) : Option String :=
  match cql_filter with
  | some f =>
      if column_parameters ≠ "" then some (f ++ " AND " ++ column_parameters)
      else some f
  | none =>
      if column_parameters ≠ "" then some column_parameters
      else none

/-- Validation and expansion of the `properties` parameter (lines 264-277):
`"*"` expands to the quoted catalog columns joined by commas (with the
trailing comma dropped); otherwise each comma-separated entry must be a
catalog column or the request fails with
`Column: {property} is not a column for {schema}.{table}.`. -/
def items_validate_properties (schema table : String) (fields : List String)
    (properties : String) : Except String String :=
  if properties = "*" then
    Except.ok ((String.join (fields.map fun c => "\"" ++ c ++ "\",")).dropRight 1)
  else
    if properties.length > 0 then
      match (split_on_comma properties).find? (fun p => !(fields.contains p)) with
      | some p =>
          Except.error ("Column: " ++ p ++ " is not a column for " ++
            schema ++ "." ++ table ++ ".")
      | none => Except.ok properties
    else Except.ok properties

/-! ## Filter compiler

The router imports `to_sql_where` from `api.filter.evaluate`, a module of
this repository that is not present under `src/`; only its caller is. -/

/-- The filter AST produced by the parser. Modelled from the spec:
`FilterAST` is a tagged variant `Comparison{column, operator, literal}`,
`Logical{op: And|Or|Not, children}`, `SpatialPredicate{relationship,
geometryLiteral}` (spec section 3). -/
inductive FilterAST where
  | comparison (column : String) (op : String) (literal : String)
  | logicalAnd (left right : FilterAST)
  | logicalOr (left right : FilterAST)
  | logicalNot (child : FilterAST)
  | spatial (relationship : String) (column : String) (geometry : String)
deriving Repr, DecidableEq

/-- Modelled from the spec: the missing `api.filter.evaluate.to_sql_where`
binds an AST against the field mapping and "fails with
`UnknownColumnError{column}` when an AST leaf references a column absent from
`catalog`" (spec section 4.2); the failure surfaces in the router as a
`KeyError` carrying the offending column name, which is modelled as the
`Except.error` payload here. -/
def to_sql_where (ast : FilterAST)
    (field_mapping : List (String × String)) : Except String String :=
  match ast with
  | FilterAST.comparison column op literal =>
      match field_mapping.lookup column with
      | none => Except.error column
      | some mapped =>
          Except.ok ("(" ++ mapped ++ " " ++ op ++ " " ++ squo ++ literal ++ squo ++ ")")
  | FilterAST.logicalAnd l r =>
      match to_sql_where l field_mapping, to_sql_where r field_mapping with
      | Except.ok a, Except.ok b => Except.ok ("(" ++ a ++ " AND " ++ b ++ ")")
      | Except.error c, _ => Except.error c
      | _, Except.error c => Except.error c
  | FilterAST.logicalOr l r =>
      match to_sql_where l field_mapping, to_sql_where r field_mapping with
      | Except.ok a, Except.ok b => Except.ok ("(" ++ a ++ " OR " ++ b ++ ")")
      | Except.error c, _ => Except.error c
      | _, Except.error c => Except.error c
  | FilterAST.logicalNot c =>
      match to_sql_where c field_mapping with
      | Except.ok a => Except.ok ("NOT (" ++ a ++ ")")
      | Except.error e => Except.error e
  | FilterAST.spatial rel column geometry =>
      match field_mapping.lookup column with
      | none => Except.error column
      | some mapped =>
          Except.ok (rel ++ "(" ++ mapped ++ ", " ++ squo ++ geometry ++ squo ++ ")")

/-- The `cql_filter` compilation step of the `items` endpoint (lines
297-303): a `KeyError` from `to_sql_where` is turned into the fixed message
`Invalid column in cql_filter parameter for {schema}.{table}.`. -/
def items_cql_filter_compile (schema table : String)
    (field_mapping : List (String × String)) (ast : FilterAST) :
    Except String String :=
  match to_sql_where ast field_mapping with
  | Except.error _ =>
      Except.error ("Invalid column in cql_filter parameter for " ++
        schema ++ "." ++ table ++ ".")
  | Except.ok w => Except.ok w

/-! ## Bins (router lines 1204-1256) -/

/-- The bucket bounds the `bins` endpoint computes (lines 1232-1240):
`group_size = (max - min) / number_of_bins`; bucket `0` gets
`(data["min"], group_size)`, bucket `group > 0` gets
`(group * group_size, (group + 1) * group_size)`. Numbers are modelled as
rationals. -/
def bins_breaks (mn mx : Rat) (number_of_bins : Nat) : List (Rat × Rat) :=
  let group_size := (mx - mn) / (number_of_bins : Rat)
  (List.range number_of_bins).map fun group =>
    if group = 0 then (mn, group_size)
    else ((group : Rat) * group_size, ((group : Rat) + 1) * group_size)

/-- The per-bucket count query (lines 1241-1246):
`WHERE "{column}" > {minimum} AND "{column}" <= {maximum}` over the column's
rows. -/
def bins_bucket_count (rows : List Rat) (minimum maximum : Rat) : Nat :=
  rows.countP fun v => minimum < v && v ≤ maximum

/-- The `bins` endpoint's result list (lines 1234-1254): one
`(min, max, count)` triple per bucket. -/
def bins_results (rows : List Rat) (mn mx : Rat) (number_of_bins : Nat) :
    List (Rat × Rat × Nat) :=
  (bins_breaks mn mx number_of_bins).map fun b => (b.1, b.2, bins_bucket_count rows b.1 b.2)

/-! ## Cache invalidation on mutations and `delete_tile_cache` -/

/-- The six row/schema mutation endpoints of the router. -/
inductive TableMutation where
  | create_item
  | update_item
  | modify_item
  | delete_item
  | add_column
  | delete_column
deriving Repr, DecidableEq

/-- The cache effect every mutation endpoint performs after its database
statement (router lines 601-602, 774-775, 861-862, 891-892, 1522-1523,
1552-1553 — identical in all six):
`if os.path.exists(cwd/cache/{schema}_{table}): shutil.rmtree(...)`. -/
def mutation_cache_effect (m : TableMutation) (schema table : String)
    (fs : TileFS) : TileFS :=
  match m with
  | TableMutation.create_item =>
      if dir_exists fs (table_cache_dir schema table) then
        rmtree (table_cache_dir schema table) fs
      else fs
  | TableMutation.update_item =>
      if dir_exists fs (table_cache_dir schema table) then
        rmtree (table_cache_dir schema table) fs
      else fs
  | TableMutation.modify_item =>
      if dir_exists fs (table_cache_dir schema table) then
        rmtree (table_cache_dir schema table) fs
      else fs
  | TableMutation.delete_item =>
      if dir_exists fs (table_cache_dir schema table) then
        rmtree (table_cache_dir schema table) fs
      else fs
  | TableMutation.add_column =>
      if dir_exists fs (table_cache_dir schema table) then
        rmtree (table_cache_dir schema table) fs
      else fs
  | TableMutation.delete_column =>
      if dir_exists fs (table_cache_dir schema table) then
        rmtree (table_cache_dir schema table) fs
      else fs

/-- `utilities.delete_tile_cache` (lines 459-469):
`if os.path.exists(cwd/cache/{schema}_{table}): shutil.rmtree(...)`. -/
def delete_tile_cache (schema table : String) (fs : TileFS) : TileFS :=
  if dir_exists fs (table_cache_dir schema table) then
    rmtree (table_cache_dir schema table) fs
  else fs

/-! ## Concrete instances used to evaluate the model -/

/-- A storage oracle answering every tile query with the payload `LIVE`. -/
def tile_db_const : TileArgs → String := fun _ => "LIVE"

/-- A filesystem holding one cached artifact for
`public.states / WorldCRS84Quad / 0 / 0 / 0`. -/
def fs_with_cached_tile : TileFS :=
  { dirs := ["cache/public_states/WorldCRS84Quad/0/0"],
    files := [("cache/public_states/WorldCRS84Quad/0/0/0", "CACHED")],
    makedirs_ok := true }

/-- An empty cache filesystem on which `os.makedirs` succeeds. -/
def fs_empty : TileFS := { dirs := [], files := [], makedirs_ok := true }

/-- An empty cache filesystem on which `os.makedirs` fails (for instance the
cache root is not writable). -/
def fs_makedirs_fail : TileFS := { dirs := [], files := [], makedirs_ok := false }

/-- A tile request for `public.states / WorldCRS84Quad / 0 / 0 / 0` that
carries a dynamic `cql_filter` and no `fields`. -/
def tile_args_with_filter : TileArgs :=
  { schema := "public", table := "states", tile_matrix_set_id := "WorldCRS84Quad",
    z := 0, x := 0, y := 0, fields := none,
    cql_filter := some ("state_name = " ++ squo ++ "New York" ++ squo) }

/-- The same tile request with neither `fields` nor `cql_filter`. -/
def tile_args_plain : TileArgs :=
  { schema := "public", table := "states", tile_matrix_set_id := "WorldCRS84Quad",
    z := 0, x := 0, y := 0, fields := none, cql_filter := none }

/-- The arguments `items` passes to `get_table_geojson` for
`GET /collections/public.states/items?state_name=New York` on a catalog
`gid, state_name, geom`: every default in place and the implicit
column-equality fragment as the filter. -/
def geojson_args_items_example : GeojsonArgs :=
  { schema := "public", table := "states",
    filter := items_cql_filter_merge none
      (column_where_parameters ["gid", "state_name", "geom"]
        [("state_name", "New York")]),
    bbox := none, limit := 10, offset := 0,
    properties := "\"gid\",\"state_name\",\"geom\"", sortby := "gid",
    sortdesc := 1, srid := 4326, return_geometry := true }

/-- The arguments `items` passes to `get_table_geojson` for a request with
every parameter left at its default. -/
def geojson_args_default : GeojsonArgs :=
  { schema := "public", table := "states", filter := none, bbox := none,
    limit := 10, offset := 0, properties := "\"gid\",\"state_name\",\"geom\"",
    sortby := "gid", sortdesc := 1, srid := 4326, return_geometry := true }

/-! ## Helper lemmas -/

theorem list_any_filter_not {α : Type} (p : α → Bool) (l : List α) :
    (l.filter fun a => !(p a)).any p = false := by
  induction l with
  | nil => rfl
  | cons a t ih =>
    by_cases h : p a = true
    · simp [List.filter_cons, h, ih]
    · simp only [Bool.not_eq_true] at h
      simp [List.filter_cons, h, ih]

theorem lookup_eq_none_of_keys_ne {β : Type} (l : List (String × β)) (k : String)
    (h : ∀ e ∈ l, e.1 ≠ k) : l.lookup k = none := by
  induction l with
  | nil => rfl
  | cons e t ih =>
    obtain ⟨k1, v⟩ := e
    have h1 : k1 ≠ k := h (k1, v) (List.mem_cons_self _ _)
    have hbeq : (k == k1) = false := by
      simp only [beq_eq_false_iff_ne, ne_eq]
      exact fun hh => h1 hh.symm
    have h2 : ∀ x ∈ t, x.1 ≠ k := fun x hx => h x (List.mem_cons_of_mem _ hx)
    simp [List.lookup, hbeq, ih h2]

theorem chars_isPrefixOf_refl (l : List Char) : l.isPrefixOf l = true := by
  induction l with
  | nil => rfl
  | cons c cs ih => simp [List.isPrefixOf, ih]

theorem chars_isPrefixOf_append_right (l : List Char) :
    ∀ (s t : List Char), l.isPrefixOf s = true → l.isPrefixOf (s ++ t) = true := by
  induction l with
  | nil => intro s t _; simp [List.isPrefixOf]
  | cons c cs ih =>
    intro s t h
    cases s with
    | nil => simp [List.isPrefixOf] at h
    | cons d ds =>
      simp only [List.isPrefixOf, List.cons_append, Bool.and_eq_true, beq_iff_eq] at h ⊢
      exact ⟨h.1, ih ds t h.2⟩

theorem strStartsWith_refl (p : String) : strStartsWith p p = true :=
  chars_isPrefixOf_refl p.data

theorem strStartsWith_append_right (p s t : String)
    (h : strStartsWith p s = true) : strStartsWith p (s ++ t) = true := by
  unfold strStartsWith at h ⊢
  rw [String.data_append]
  exact chars_isPrefixOf_append_right p.data s.data t.data h

theorem strStartsWith_cache_file (schema table tile_matrix_set_id : String)
    (z x y : Int) :
    strStartsWith (table_cache_dir schema table ++ "/")
      (cache_file_path schema table tile_matrix_set_id z x y) = true := by
  unfold cache_file_path
  apply strStartsWith_append_right
  apply strStartsWith_append_right
  apply strStartsWith_append_right
  apply strStartsWith_append_right
  apply strStartsWith_append_right
  apply strStartsWith_append_right
  apply strStartsWith_append_right
  exact strStartsWith_refl _

theorem lookup_cache_file_invalidated (fs : TileFS) (schema table : String)
    (tile_matrix_set_id : String) (z x y : Int) :
    ((if dir_exists fs (table_cache_dir schema table) then
        rmtree (table_cache_dir schema table) fs
      else fs).files.lookup
        (cache_file_path schema table tile_matrix_set_id z x y)) = none := by
  by_cases h : dir_exists fs (table_cache_dir schema table) = true
  · rw [if_pos h]
    apply lookup_eq_none_of_keys_ne
    intro e he hk
    have hmem := List.mem_filter.mp he
    have hpref : strStartsWith (table_cache_dir schema table ++ "/") e.1 = false := by
      simpa using hmem.2
    rw [hk, strStartsWith_cache_file] at hpref
    exact Bool.noConfusion hpref
  · rw [if_neg h]
    have hb : dir_exists fs (table_cache_dir schema table) = false :=
      Bool.eq_false_iff.mpr h
    unfold dir_exists at hb
    have hfiles :
        (fs.files.any fun f =>
          strStartsWith (table_cache_dir schema table ++ "/") f.1) = false := by
      rcases Bool.or_eq_false_iff.mp hb with ⟨_, h2⟩
      exact h2
    apply lookup_eq_none_of_keys_ne
    intro e he hk
    have hne := List.any_eq_false.mp hfiles e he
    rw [hk] at hne
    exact hne (strStartsWith_cache_file schema table tile_matrix_set_id z x y)

theorem dir_exists_rmtree (p : String) (fs : TileFS) :
    dir_exists (rmtree p fs) p = false := by
  unfold dir_exists rmtree
  simp only
  rw [list_any_filter_not, list_any_filter_not]
  rfl

theorem write_tile_error_iff (fs : TileFS) (dir file tile : String) :
    (∃ e, write_tile_to_cache fs dir file tile = Except.error e) ↔
      (dir_exists fs dir = false ∧ fs.makedirs_ok = false) := by
  unfold write_tile_to_cache
  by_cases h1 : dir_exists fs dir = true
  · simp [h1]
  · have h1f : dir_exists fs dir = false := Bool.eq_false_iff.mpr h1
    by_cases h2 : fs.makedirs_ok = true
    · simp only [h1f, if_pos rfl, h2, if_pos rfl]
      have hself : dir_exists
          { dirs := dir :: fs.dirs, files := fs.files,
            makedirs_ok := fs.makedirs_ok } dir = true := by
        unfold dir_exists
        simp [List.any_cons]
      rw [h2] at hself
      simp [hself, h1f, h2]
    · have h2f : fs.makedirs_ok = false := Bool.eq_false_iff.mpr h2
      simp [h1f, h2f]

/-! ## Claims -/

/-- C1: the claim says every literal from the request appears in the
assembled query only as a bound parameter and never inside the query text.
Evaluating the `items` assembly at the failing input — catalog
`gid, state_name, geom` and extra query parameter `state_name=New York` —
shows the literal spliced between single quotes directly into the query
string that `con.fetchrow` receives (no parameter list exists anywhere on
this path). -/
theorem c1_literal_concatenated_into_query_text :
    strContains (get_table_geojson_query geojson_args_items_example)
      ("state_name = " ++ squo ++ "New York" ++ squo) = true := by decide

/-- C2: the claim says a tile request carrying `fields` or `cql_filter` is
always answered by a live query and never from the cache. Evaluating
`get_tile` at the failing input — a request with a `cql_filter` whose
`TileKey` already has a cached artifact — shows the cached artifact served
(`tile_cache = true`) with no query executed (`queried = false`): the hit
test `os.path.exists(cache_file)` ignores both dynamic parameters. -/
theorem c2_cache_hit_ignores_dynamic_params :
    get_tile tile_db_const 3600 fs_with_cached_tile tile_args_with_filter =
      Except.ok { pbf := "", tile_cache := true, fs := fs_with_cached_tile,
                  queried := false, wrote := false } ∧
    tile_args_with_filter.cql_filter.isSome = true := ⟨rfl, rfl⟩

/-- C3: the claim says bucket 0 spans `[min, min + width]` inclusive of the
minimum and later buckets are offset from the column's true minimum.
Evaluating `bins` at min = 100, max = 200, 2 bins shows bucket 0 = (100, 50]
(upper bound below the lower bound) and bucket 1 = (50, 100]: the bounds are
`group * group_size` without the `min` offset; and since every count uses
`> minimum`, even with min = 0 the row equal to the minimum is counted
nowhere, so the counts do not sum to the row count. -/
theorem c3_bins_shifted_and_min_excluded :
    bins_breaks 100 200 2 = [(100, 50), (50, 100)] ∧
    ((bins_results [100, 150, 200] 100 200 2).map fun r => r.2.2).sum = 1 ∧
    ((bins_results [0, 5] 0 10 2).map fun r => r.2.2).sum = 1 := by
  refine ⟨?_, ?_, ?_⟩ <;>
    norm_num [bins_breaks, bins_results, bins_bucket_count, List.range_succ,
      List.countP_cons, List.countP_nil]

/-- Counterexample for C4: a tile request with `fields` and `cql_filter`
unset and a positive configured max-age, whose `TileKey` already has a
cached artifact, performs no cache write (`wrote = false`) — the claimed
"iff" fails on a cache hit. -/
theorem c4_counterexample :
    get_tile tile_db_const 3600 fs_with_cached_tile tile_args_plain =
      Except.ok { pbf := "", tile_cache := true, fs := fs_with_cached_tile,
                  queried := false, wrote := false } ∧
    tile_args_plain.fields = none ∧ tile_args_plain.cql_filter = none ∧
    (0 : Int) < 3600 := ⟨rfl, rfl, rfl, by decide⟩

/-- C4 (amended): on any run of `get_tile` that completes, a cache write
occurs if and only if the lookup missed (no artifact stored under the
request's `TileKey`) and `fields` is unset and `cql_filter` is unset and the
configured cache max-age is greater than zero. -/
theorem c4_cache_write_iff (db : TileArgs → String) (cache_age_in_seconds : Int)
    (fs : TileFS) (a : TileArgs) (out : TileOutput)
    (h : get_tile db cache_age_in_seconds fs a = Except.ok out) :
    out.wrote = true ↔
      ((fs.files.lookup
          (cache_file_path a.schema a.table a.tile_matrix_set_id a.z a.x a.y)).isSome
            = false ∧
        a.fields = none ∧ a.cql_filter = none ∧ 0 < cache_age_in_seconds) := by
  unfold get_tile at h
  split at h
  next h1 =>
    simp only [Except.ok.injEq] at h
    subst h
    simp [h1]
  next h1 =>
    rw [Bool.not_eq_true] at h1
    split at h
    next h2 =>
      obtain ⟨hf, hc, ha⟩ := h2
      split at h
      next fs2 hw =>
        simp only [Except.ok.injEq] at h
        subst h
        simp [h1, hf, hc, ha]
      next e hw => exact Except.noConfusion h
    next h2 =>
      simp only [Except.ok.injEq] at h
      subst h
      constructor
      · intro hh
        exact Bool.noConfusion hh
      · rintro ⟨_, hf, hc, ha⟩
        exact absurd ⟨hf, hc, ha⟩ h2

/-- Witness for C4: the amended theorem applied to a cache miss with no
dynamic parameters and a positive max-age on an empty cache. -/
theorem c4_witness :
    ((TileOutput.mk "LIVE" false
        { dirs := ["cache/public_states/WorldCRS84Quad/0/0"],
          files := [("cache/public_states/WorldCRS84Quad/0/0/0", "LIVE")],
          makedirs_ok := true } true true).wrote = true ↔
      ((fs_empty.files.lookup
          (cache_file_path tile_args_plain.schema tile_args_plain.table
            tile_args_plain.tile_matrix_set_id tile_args_plain.z
            tile_args_plain.x tile_args_plain.y)).isSome = false ∧
        tile_args_plain.fields = none ∧ tile_args_plain.cql_filter = none ∧
        (0 : Int) < 3600)) :=
  c4_cache_write_iff tile_db_const 3600 fs_empty tile_args_plain _ rfl

/-- C5: the claim says the response's max-age is 0 whenever the response was
computed with a dynamic filter and/or fields parameter. The route only zeroes
it when BOTH are supplied (`fields is not None and cql_filter is not None`),
so this filter-only request is served with the configured
`Cache-Control: max-age=3600` (and `tile-cache: false`). -/
theorem c5_filter_only_gets_configured_max_age :
    tile_route tile_db_const 3600 fs_empty tile_args_with_filter =
      Except.ok { status_code := 200, cache_control := "max-age=3600",
                  tile_cache_header := "false", fs := fs_empty } ∧
    tile_args_with_filter.cql_filter.isSome = true ∧
    tile_args_with_filter.fields = none := ⟨rfl, rfl, rfl⟩

/-- Counterexample for C6: with `sortby` left at its default `gid`, the
assembled query contains no `ORDER BY` text at all — in particular the rows
are not ordered by `gid` ascending. -/
theorem c6_counterexample :
    strContains (get_table_geojson_query geojson_args_default) "ORDER BY" = false := by
  decide

/-- C6 (amended): when `sortby` is left at its default `gid`, the query
builder appends an empty ordering segment (no `ORDER BY` clause, so the row
order is left to the database); an ` ORDER BY {sortby} asc|desc` segment is
appended exactly when `sortby` differs from `gid`, and the full query is the
concatenation of the projection, from, where, ordering, pagination and
closing segments in that order. -/
theorem c6_order_by (a : GeojsonArgs) :
    (a.sortby = "gid" → order_by_clause a.sortby a.sortdesc = "") ∧
    (a.sortby ≠ "gid" →
      order_by_clause a.sortby a.sortdesc =
        " ORDER BY " ++ a.sortby ++ " " ++
          (if a.sortdesc ≠ 1 then "desc" else "asc")) ∧
    get_table_geojson_query a =
      select_clause a ++ from_clause a.schema a.table ++
        where_clause a.filter a.bbox ++ order_by_clause a.sortby a.sortdesc ++
        offset_limit_clause a.offset a.limit ++
        closing_clause a.return_geometry := by
  refine ⟨fun h => by simp [order_by_clause, h], fun h => by simp [order_by_clause, h],
    rfl⟩

/-- Witness for C6: the amended theorem applied to the default request. -/
theorem c6_witness :
    order_by_clause geojson_args_default.sortby geojson_args_default.sortdesc = "" :=
  (c6_order_by geojson_args_default).1 rfl

/-- C7: every row or schema mutation endpoint (item create, update, modify,
delete, add-column, drop-column) removes the whole per-table cache directory,
so afterwards the lookup of any `TileKey` under that table finds nothing. -/
theorem c7_mutation_invalidates_table_cache (m : TableMutation)
    (schema table tile_matrix_set_id : String) (z x y : Int) (fs : TileFS) :
    ((mutation_cache_effect m schema table fs).files.lookup
      (cache_file_path schema table tile_matrix_set_id z x y)) = none := by
  cases m <;>
    exact lookup_cache_file_invalidated fs schema table tile_matrix_set_id z x y

/-- Counterexample for C8: a `cql_filter` referencing the unknown column
`state_names` is rejected with the fixed message
`Invalid column in cql_filter parameter for public.states.`, which names the
table but not the offending column. -/
theorem c8_counterexample :
    items_cql_filter_compile "public" "states"
        [("gid", "gid"), ("state_name", "state_name")]
        (FilterAST.comparison "state_names" "=" "New York") =
      Except.error "Invalid column in cql_filter parameter for public.states." ∧
    strContains "Invalid column in cql_filter parameter for public.states."
      "state_names" = false := ⟨rfl, by decide⟩

/-- C8 (amended): a projection entry absent from the catalog fails with a
message naming both the offending column and the table
(`Column: {p} is not a column for {schema}.{table}.`); a filter AST
referencing a column absent from the field mapping fails with a message
naming only the target table
(`Invalid column in cql_filter parameter for {schema}.{table}.`), without the
offending column. -/
theorem c8_unknown_column_messages :
    (∀ (schema table : String) (fields : List String) (properties p : String),
      properties ≠ "*" → properties.length > 0 →
      (split_on_comma properties).find? (fun q => !(fields.contains q)) = some p →
      items_validate_properties schema table fields properties =
        Except.error ("Column: " ++ p ++ " is not a column for " ++
          schema ++ "." ++ table ++ ".")) ∧
    (∀ (schema table : String) (field_mapping : List (String × String))
        (ast : FilterAST) (c : String),
      to_sql_where ast field_mapping = Except.error c →
      items_cql_filter_compile schema table field_mapping ast =
        Except.error ("Invalid column in cql_filter parameter for " ++
          schema ++ "." ++ table ++ ".")) := by
  constructor
  · intro schema table fields properties p h1 h2 h3
    unfold items_validate_properties
    rw [if_neg h1, if_pos h2, h3]
  · intro schema table field_mapping ast c h
    unfold items_cql_filter_compile
    rw [h]

/-- Witness for C8: the amended theorem applied to the unknown column
`state_names` on catalog `gid, state_name` for table `public.states`. -/
theorem c8_witness :
    items_validate_properties "public" "states" ["gid", "state_name"]
        "state_names" =
      Except.error "Column: state_names is not a column for public.states." ∧
    items_cql_filter_compile "public" "states" [("gid", "gid")]
        (FilterAST.comparison "state_names" "=" "New York") =
      Except.error "Invalid column in cql_filter parameter for public.states." :=
  ⟨c8_unknown_column_messages.1 "public" "states" ["gid", "state_name"]
      "state_names" "state_names" (by decide) (by decide) (by decide),
    c8_unknown_column_messages.2 "public" "states" [("gid", "gid")]
      (FilterAST.comparison "state_names" "=" "New York") "state_names" rfl⟩

/-- Counterexample for C9: on a cacheable cache miss whose cache directory
does not exist and cannot be created, the swallowed `os.makedirs` failure is
followed by the unguarded `open(cache_file, "wb")`, whose error propagates —
the tile request fails even though the live query already produced the
tile. -/
theorem c9_counterexample :
    get_tile tile_db_const 3600 fs_makedirs_fail tile_args_plain =
      Except.error "OSError: cache file open failed" := rfl

/-- C9 (amended): a `get_tile` run fails exactly when it is a cache miss,
the request is cache-eligible (`fields` unset, `cql_filter` unset, positive
max-age), the cache directory does not exist, and creating it fails: the
`os.makedirs` error is caught, but the subsequent unguarded cache-file open
fails the request. In every other situation cache state never fails the
request. -/
theorem c9_request_error_iff (db : TileArgs → String) (cache_age_in_seconds : Int)
    (fs : TileFS) (a : TileArgs) :
    (∃ e, get_tile db cache_age_in_seconds fs a = Except.error e) ↔
      ((fs.files.lookup
          (cache_file_path a.schema a.table a.tile_matrix_set_id a.z a.x a.y)).isSome
            = false ∧
        a.fields = none ∧ a.cql_filter = none ∧ 0 < cache_age_in_seconds ∧
        dir_exists fs
          (cache_file_dir a.schema a.table a.tile_matrix_set_id a.z a.x) = false ∧
        fs.makedirs_ok = false) := by
  unfold get_tile
  by_cases h1 : (fs.files.lookup
      (cache_file_path a.schema a.table a.tile_matrix_set_id a.z a.x a.y)).isSome
        = true
  · simp [h1]
  · have h1f : (fs.files.lookup
        (cache_file_path a.schema a.table a.tile_matrix_set_id a.z a.x a.y)).isSome
          = false := Bool.eq_false_iff.mpr h1
    by_cases h2 : a.fields = none ∧ a.cql_filter = none ∧ 0 < cache_age_in_seconds
    · obtain ⟨hf, hc, ha⟩ := h2
      rw [if_neg h1, if_pos ⟨hf, hc, ha⟩]
      cases hw : write_tile_to_cache fs
          (cache_file_dir a.schema a.table a.tile_matrix_set_id a.z a.x)
          (cache_file_path a.schema a.table a.tile_matrix_set_id a.z a.x a.y)
          (db a) with
      | ok fs2 =>
        simp only [hw]
        have hnot : ¬(dir_exists fs
            (cache_file_dir a.schema a.table a.tile_matrix_set_id a.z a.x) = false ∧
            fs.makedirs_ok = false) := by
          intro hcontr
          rcases (write_tile_error_iff fs
              (cache_file_dir a.schema a.table a.tile_matrix_set_id a.z a.x)
              (cache_file_path a.schema a.table a.tile_matrix_set_id a.z a.x a.y)
              (db a)).mpr hcontr with ⟨e, he⟩
          rw [hw] at he
          exact Except.noConfusion he
        simp [h1f, hf, hc, ha, hnot]
      | error e =>
        simp only [hw]
        have hch := (write_tile_error_iff fs
            (cache_file_dir a.schema a.table a.tile_matrix_set_id a.z a.x)
            (cache_file_path a.schema a.table a.tile_matrix_set_id a.z a.x a.y)
            (db a)).mp ⟨e, hw⟩
        simp [h1f, hf, hc, ha, hch.1, hch.2]
    · rw [if_neg h1, if_neg h2]
      constructor
      · rintro ⟨e, he⟩
        exact Except.noConfusion he
      · rintro ⟨_, hff, hcc, haa, _, _⟩
        exact absurd ⟨hff, hcc, haa⟩ h2

/-- C10: `delete_tile_cache` is total and idempotent — deleting an absent
cache is a no-op, a repeated call changes nothing further, and after any
call no tile of the table remains cached. -/
theorem c10_delete_tile_cache_total_idempotent (schema table : String)
    (fs : TileFS) :
    (dir_exists fs (table_cache_dir schema table) = false →
      delete_tile_cache schema table fs = fs) ∧
    delete_tile_cache schema table (delete_tile_cache schema table fs) =
      delete_tile_cache schema table fs ∧
    ∀ (tile_matrix_set_id : String) (z x y : Int),
      ((delete_tile_cache schema table fs).files.lookup
        (cache_file_path schema table tile_matrix_set_id z x y)) = none := by
  refine ⟨fun h => ?_, ?_, ?_⟩
  · unfold delete_tile_cache
    rw [if_neg (by simp [h])]
  · by_cases h : dir_exists fs (table_cache_dir schema table) = true
    · unfold delete_tile_cache
      rw [if_pos h, if_neg (by simp [dir_exists_rmtree])]
    · unfold delete_tile_cache
      rw [if_neg h, if_neg h]
  · intro tile_matrix_set_id z x y
    exact lookup_cache_file_invalidated fs schema table tile_matrix_set_id z x y

/-- Witness for C10: deleting the cache of `public.states` on an empty
filesystem succeeds as a no-op. -/
theorem c10_witness :
    delete_tile_cache "public" "states" fs_empty = fs_empty :=
  (c10_delete_tile_cache_total_idempotent "public" "states" fs_empty).1 (by decide)

end FastCollections
